import Mathlib

/-!
Shallow embedding of the gochatsrv chat server (server.go, usermgr.go, util.go,
serveraux.go, persistence.go, main.go) and proofs about its user registry,
command dispatcher, shutdown countdown and login state machine.

Modelling conventions, stated once:
* Go `map[string]*User` becomes an association list `List (String × UserId)`
  together with a pointer heap `List (UserId × User)`; pointer aliasing
  (several map keys referencing the same `*User`) is preserved.
* Connection writes are modelled as always succeeding: every send becomes an
  `Event` in an output trace.  No claim under study concerns delivery failure,
  so the failed-write removal branch of `unsafeSendMessageToUser` is not
  reachable in the model and is omitted.
* `logEvent` writes to the process log only and is omitted from traces.
* The external `termcolor` presentation transform is opaque per the design
  scope; it is modelled as the identity on strings.
* The external `bcrypt` library is opaque per the design scope; hashing is
  modelled as the identity encoding, and hash comparison as string equality,
  which preserves the round-trip `compare (hash pw) pw = ok`.
* The sqlite-backed credential store (persistence.go) is modelled as a list of
  rows with the same observable behaviour (UNIQUE usernames, UPDATE/DELETE by
  exact username match).
* Machine integers: Go `int` values in play (privileges, shutdown seconds)
  are small; they are modelled as `Int`/`Nat` without overflow, which the
  program never approaches.
* Strings: nicknames are validated ASCII (`^[a-zA-Z][a-zA-Z0-9_]{2,19}$`), so
  Go's Unicode `strings.ToLower`/`strings.EqualFold` coincide with the ASCII
  folding used here.
-/

namespace Gochatsrv

/-! ### Go string helpers (strings package, ASCII fragment) -/

/-- `strings.ToLower` (ASCII fragment; all registry keys are validated ASCII). -/
def goToLower (s : String) : String := ⟨s.data.map Char.toLower⟩

/-- `strings.EqualFold` (ASCII fragment): equality under case folding. -/
def eqFold (a b : String) : Bool := goToLower a == goToLower b

/-- `strings.TrimRight s cutset`: drop trailing characters that occur in `cutset`. -/
def goTrimRightSet (s : String) (cutset : List Char) : String :=
  ⟨(s.data.reverse.dropWhile (fun c => cutset.contains c)).reverse⟩

/-- `strings.TrimLeft s cutset`. -/
def goTrimLeftSet (s : String) (cutset : List Char) : String :=
  ⟨s.data.dropWhile (fun c => cutset.contains c)⟩

/-- `strings.Trim s cutset`: drop the cutset characters from both ends. -/
def goTrimSet (s : String) (cutset : List Char) : String :=
  goTrimLeftSet (goTrimRightSet s cutset) cutset

/-- `strings.TrimSpace`: drop whitespace from both ends. -/
def goTrimSpace (s : String) : String :=
  ⟨((s.data.dropWhile Char.isWhitespace).reverse.dropWhile Char.isWhitespace).reverse⟩

/-- `strings.Fields`: split on whitespace runs, dropping empty tokens. -/
def goFields (s : String) : List String :=
  (s.split (fun c => c.isWhitespace)).filter (fun t => t ≠ "")

/-- `strings.Join parts sep`. -/
def goJoin (parts : List String) (sep : String) : String :=
  String.intercalate sep parts

/-- Does `l` start with `p`? (character-list helper for `strings.Contains`). -/
def startsWithChars : List Char → List Char → Bool
  | [], _ => true
  | _ :: _, [] => false
  | a :: as, b :: bs => a == b && startsWithChars as bs

/-- Does `l` contain `sub` as a contiguous run? -/
def containsChars (sub : List Char) : List Char → Bool
  | [] => sub.isEmpty
  | b :: bs => startsWithChars sub (b :: bs) || containsChars sub bs

/-- `strings.Contains s sub`. -/
def strContains (s sub : String) : Bool := containsChars sub.data s.data

/-- Lexicographic comparison of character lists (Go's `<` on strings,
byte-wise; identical on the ASCII data in play). -/
def charListLt : List Char → List Char → Bool
  | [], [] => false
  | [], _ :: _ => true
  | _ :: _, [] => false
  | a :: as, b :: bs => decide (a < b) || (a == b && charListLt as bs)

/-- Go string `<`. -/
def strLt (a b : String) : Bool := charListLt a.data b.data

/-- `strconv.Atoi` digit run (empty run is an error). -/
def atoiDigits : List Char → Option Nat
  | [] => none
  | cs =>
    if cs.all Char.isDigit then
      some (cs.foldl (fun acc c => acc * 10 + (c.toNat - 48)) 0)
    else none

/-- `strconv.Atoi`: optional sign followed by a nonempty digit run.
Overflow is not modelled (the program only parses small shutdown delays). -/
def goAtoi (s : String) : Option Int :=
  match s.data with
  | '+' :: rest => (atoiDigits rest).map Int.ofNat
  | '-' :: rest => (atoiDigits rest).map (fun n => -(n : Int))
  | cs => (atoiDigits cs).map Int.ofNat

/-! ### util.go -/

/-- server.go constant. -/
def ErrPrivilege : String := "this is a system command, must be admin user to execute"

/-- server.go constant. -/
def ErrIllegalNickname : String := "illegal nickname"

/-- server.go constant. -/
def ErrInvalidShutdownTime : String := "invalid shutdown time, specify <#seconds>"

/-- server.go constant. -/
def serverName : String := "ChatServer"

/-- server.go constant. -/
def loginTimeout : Nat := 30

/-- server.go constant. -/
def maxLoginAttempts : Nat := 3

/-- `[a-zA-Z]` of the nickname regexp. -/
def isAsciiLetter (c : Char) : Bool :=
  (decide ('a' ≤ c) && decide (c ≤ 'z')) || (decide ('A' ≤ c) && decide (c ≤ 'Z'))

/-- `[a-zA-Z0-9_]` of the nickname regexp. -/
def isNickTailChar (c : Char) : Bool :=
  isAsciiLetter c || c.isDigit || c == '_'

/-- Direct rendering of the anchored regexp `^[a-zA-Z][a-zA-Z0-9_]{2,19}$`
used by `validateNickname` (util.go): one leading ASCII letter, then 2 to 19
letters/digits/underscores. -/
def nicknameRegexMatches (s : String) : Bool :=
  match s.data with
  | [] => false
  | c :: rest =>
    isAsciiLetter c && decide (2 ≤ rest.length) && decide (rest.length ≤ 19)
      && rest.all isNickTailChar

/-- util.go `validateNickname`. -/
def validateNickname (nickname : String) : Except String Unit :=
  if nicknameRegexMatches nickname then Except.ok () else Except.error ErrIllegalNickname

/-- util.go `sanitizeNickname`: remove every space and backslash, then strip
trailing CR/LF.  `strings.ReplaceAll` with a one-character pattern and empty
replacement is exactly a character filter. -/
def sanitizeNickname (nickname : String) : String :=
  let n1 : String := ⟨nickname.data.filter (fun c => c ≠ ' ')⟩
  let n2 : String := ⟨n1.data.filter (fun c => c ≠ '\\')⟩
  goTrimRightSet n2 ['\r', '\n']

/-! ### Data model (usermgr.go, persistence.go) -/

/-- Stand-in for a `*User` pointer value. -/
abbrev UserId := Nat

/-- usermgr.go `User`.  `addr` models `conn.RemoteAddr().String()`; the
connection itself is identified with the owning `UserId`. -/
structure User where
  uid : UserId
  username : String
  privilege : Int
  nickname : String
  addr : String
  lastMsgFrom : String
deriving Repr, DecidableEq

/-- A row of the sqlite `users` table (persistence.go). -/
structure DBRow where
  username : String
  passwordHash : String
  privilege : Int
deriving Repr, DecidableEq

/-- The mutable server state: the `UserManager` map (`reg`, nickname key to
pointer), the pointer heap (`heap`), and the credential store (`db`). -/
structure SrvState where
  reg : List (String × UserId)
  heap : List (UserId × User)
  db : List DBRow
deriving Repr, DecidableEq

/-- Observable output events.  Sends always succeed (see the header note). -/
inductive Event where
  | msgTo (target : UserId) (text : String)
  | connMsg (text : String)
  | broadcastAll (text : String)
  | broadcastExceptNick (nick : String) (text : String)
  | sysBroadcast (text : String)
  | connClose (target : UserId)
  | terminateServerCall (seconds : Int)
deriving Repr, DecidableEq

/-- Dereference a `*User` pointer in the heap. -/
def derefUser (st : SrvState) (p : UserId) : Option User :=
  (st.heap.find? (fun e => e.1 == p)).map (fun e => e.2)

/-- In-place update of the record behind a pointer (Go field assignment). -/
def updateHeap (st : SrvState) (p : UserId) (f : User → User) : SrvState :=
  { st with heap := st.heap.map (fun e => if e.1 == p then (e.1, f e.2) else e) }

/-! ### Registry operations (usermgr.go) -/

/-- usermgr.go `FindUser`: scan the map values and return the first user whose
nickname equals the argument under `strings.EqualFold`. -/
def FindUser (st : SrvState) (nickname : String) : Option UserId :=
  (st.reg.find? (fun e =>
    match derefUser st e.2 with
    | some u => eqFold u.nickname nickname
    | none => false)).map (fun e => e.2)

/-- usermgr.go `addUser`: fail iff the map already has the key
`user.nickname` (exact-case lookup), else insert under that key. -/
def addUser (st : SrvState) (p : UserId) : SrvState × Bool :=
  match derefUser st p with
  | none => (st, false)
  | some user =>
    if (st.reg.find? (fun e => e.1 == user.nickname)).isSome then (st, false)
    else ({ st with reg := (user.nickname, p) :: st.reg }, true)

/-- usermgr.go `removeUser`: `delete(um.users, strings.ToLower(nickname))` —
remove the entry stored under exactly the lowercased key, if any. -/
def removeUser (st : SrvState) (nickname : String) : SrvState :=
  { st with reg := st.reg.filter (fun e => e.1 ≠ goToLower nickname) }

/-- usermgr.go `assignPrivilege`: case-insensitive key search, update the
pointed-to user's privilege. -/
def assignPrivilege (st : SrvState) (nickname : String) (newPrivilege : Int) :
    SrvState × Option UserId :=
  match st.reg.find? (fun e => eqFold e.1 nickname) with
  | none => (st, none)
  | some e => (updateHeap st e.2 (fun u => { u with privilege := newPrivilege }), some e.2)

/-! ### Concrete registry states used by the C1/C4/C5 evaluations -/

/-- A regular user registered under the mixed-case nickname `Alice`. -/
def uAliceMixed : User :=
  { uid := 1, username := "alice", privilege := 0, nickname := "Alice",
    addr := "192.168.0.10:41000", lastMsgFrom := "" }

/-- A second session whose nickname differs from `Alice` only in case. -/
def uAliceLower : User :=
  { uid := 2, username := "alice2", privilege := 0, nickname := "alice",
    addr := "192.168.0.11:41002", lastMsgFrom := "" }

/-- Heap with both Alice sessions allocated, empty registry, empty store. -/
def stTwoAlices : SrvState :=
  { reg := [], heap := [(1, uAliceMixed), (2, uAliceLower)], db := [] }

/-- State after `addUser` of the mixed-case `Alice` session. -/
def stAliceRegistered : SrvState := (addUser stTwoAlices 1).1

/--
C1.  The claim says `addUser` fails whenever the new session's nickname
matches a registered nickname case-insensitively.  The code checks the map
under the exact key `user.nickname` only, so after registering `Alice`,
`addUser` of a session nicknamed `alice` succeeds and the registry holds two
sessions whose nicknames are equal under case folding — refuting both the
operation contract and the at-most-one-per-folded-nickname invariant.
-/
theorem addUser_accepts_case_variant_C1 :
    (addUser stTwoAlices 1).2 = true ∧
    (addUser stAliceRegistered 2).2 = true ∧
    eqFold uAliceMixed.nickname uAliceLower.nickname = true ∧
    (addUser stAliceRegistered 2).1.reg = [("alice", 2), ("Alice", 1)] := by
  refine ⟨rfl, by decide, by decide, by decide⟩

/--
C4.  The claim says `removeUser` deletes the case-insensitive match whenever
one exists, regardless of insertion case.  The code deletes the key
`strings.ToLower(nickname)` while `addUser` inserted the un-lowered key, so
after registering `Alice` both `removeUser "Alice"` and `removeUser "alice"`
are no-ops even though a case-insensitive match is present (witnessed by
`FindUser`).  Only the no-op and idempotence parts of the claim hold.
-/
theorem removeUser_misses_mixed_case_key_C4 :
    removeUser stAliceRegistered "Alice" = stAliceRegistered ∧
    removeUser stAliceRegistered "alice" = stAliceRegistered ∧
    FindUser stAliceRegistered "Alice" = some 1 ∧
    stAliceRegistered.reg = [("Alice", 1)] := by
  refine ⟨by decide, by decide, by decide, by decide⟩

/-! ### Credential store (persistence.go), external libraries -/

/-- Stand-in for `bcrypt.GenerateFromPassword` (external library, out of the
core's scope): an opaque encoding, modelled as the identity. -/
def bcryptHash (password : String) : String := password

/-- Stand-in for `bcrypt.CompareHashAndPassword`: succeeds exactly when the
stored hash is the encoding of the presented password. -/
def bcryptCompare (hash password : String) : Bool := hash == bcryptHash password

/-- Stand-in for `termcolor.EncodeHTMLToTerm` (external presentation layer,
treated as an opaque pure transform): the identity on strings. -/
def encodeHTMLToTerm (s : String) : String := s

/-- persistence.go `createUser`: INSERT fails on the UNIQUE username
constraint, otherwise appends a row. -/
def createUser (db : List DBRow) (username passwordHash : String) (privilege : Int) :
    Except String (List DBRow) :=
  if db.any (fun r => r.username == username) then
    Except.error "UNIQUE constraint failed: users.username"
  else Except.ok (db ++ [{ username := username, passwordHash := passwordHash,
                           privilege := privilege }])

/-- persistence.go `updatePassword`: UPDATE by exact username; matching zero
rows is still a success. -/
def updatePassword (db : List DBRow) (username newPasswordHash : String) : List DBRow :=
  db.map (fun r => if r.username == username then { r with passwordHash := newPasswordHash } else r)

/-- persistence.go `updatePrivilege`. -/
def updatePrivilege (db : List DBRow) (username : String) (newPrivilege : Int) : List DBRow :=
  db.map (fun r => if r.username == username then { r with privilege := newPrivilege } else r)

/-- persistence.go `deleteUser`: DELETE by exact username. -/
def deleteUserDB (db : List DBRow) (username : String) : List DBRow :=
  db.filter (fun r => r.username ≠ username)

/-- Insertion sort used to render the deterministic orderings (`ORDER BY` in
`enumUsers`, `sort.Slice` in `generateUserList`). -/
def insertSorted {α : Type} (le : α → α → Bool) (x : α) : List α → List α
  | [] => [x]
  | y :: ys => if le x y then x :: y :: ys else y :: insertSorted le x ys

/-- Sort with the given comparison. -/
def sortByLess {α : Type} (le : α → α → Bool) (xs : List α) : List α :=
  xs.foldr (insertSorted le) []

/-- `ORDER BY privilege desc, username` of `enumUsers`. -/
def dbRowBefore (r1 r2 : DBRow) : Bool :=
  decide (r2.privilege < r1.privilege) ||
    (decide (r1.privilege = r2.privilege) && strLt r1.username r2.username)

/-- persistence.go `enumUsers`: usernames ordered by privilege descending then
username, admins tagged. -/
def enumUsers (db : List DBRow) : List String :=
  (sortByLess dbRowBefore db).map (fun r =>
    if r.privilege == 1 then r.username ++ " (admin)" else r.username)

/-- persistence.go `authenticateUser`: look the username up (exact match) and
check the presented password against the stored hash.  Returns the account
row used to populate the session. -/
def authenticateUser (db : List DBRow) (username password : String) : Option DBRow :=
  match db.find? (fun r => r.username == username) with
  | none => none
  | some r => if bcryptCompare r.passwordHash password then some r else none

/-! ### Messaging and listings (usermgr.go) -/

/-- usermgr.go `sendMessageToUser` (write always succeeds in the model). -/
def sendMessageToUser (u : UserId) (text : String) : Event := Event.msgTo u text

/-- usermgr.go `generateUserList`, the `[]string` built before joining:
one formatted line per map entry (admins see the remote address), sorted with
the source's comparator: admin lines first, otherwise lexicographic. -/
def generateUserListEntries (st : SrvState) (requesting : User) : List String :=
  sortByLess
    (fun a b => if strContains a "admin" && !(strContains b "admin") then true
                else strLt a b)
    (st.reg.filterMap (fun e =>
      (derefUser st e.2).map (fun u =>
        let priv := if u.privilege == 1 then "admin" else "user"
        if requesting.privilege == 1 then
          u.nickname ++ " (" ++ priv ++ ") (" ++ u.addr ++ ")"
        else u.nickname ++ " (" ++ priv ++ ")")))

/-- usermgr.go `generateUserList`: the joined listing. -/
def generateUserList (st : SrvState) (requesting : User) : String :=
  goJoin (generateUserListEntries st requesting) "\n" ++ "\n(end of list)\n"

/-- usermgr.go `handleWho`. -/
def handleWho (st : SrvState) (u : User) : List Event :=
  [sendMessageToUser u.uid "Current Users:",
   sendMessageToUser u.uid (generateUserList st u)]

/-- usermgr.go `handleWhoAmI`. -/
def handleWhoAmI (u : User) : List Event :=
  if u.privilege == 1 then
    [sendMessageToUser u.uid ("You are: " ++ u.nickname ++ " (admin) (" ++ u.addr ++ ")\n")]
  else
    [sendMessageToUser u.uid ("You are: " ++ u.nickname ++ " (user)\n")]

/-- usermgr.go `handlePrivateMessage`. -/
def handlePrivateMessage (st : SrvState) (sender : User) (isReply : Bool)
    (targetNickname message : String) : SrvState × List Event :=
  match FindUser st targetNickname with
  | none => (st, [sendMessageToUser sender.uid "User not found."])
  | some targetUid =>
    match derefUser st targetUid with
    | none => (st, [])
    | some target =>
      if sender.uid == targetUid then
        (st, [sendMessageToUser sender.uid
          (encodeHTMLToTerm ("<w>You whisper to yourself: " ++ message ++ "</w>"))])
      else
        let msgtype := if isReply then "reply replies" else "whisper whispers"
        let verbs := goFields msgtype
        let v0 := verbs.getD 0 ""
        let v1 := verbs.getD 1 ""
        let senderNote := sendMessageToUser sender.uid
          (encodeHTMLToTerm ("<w>You " ++ v0 ++ " to " ++ target.nickname ++ ": " ++ message ++ "</w>"))
        let targetNote :=
          if sender.privilege == 1 then
            sendMessageToUser targetUid
              (encodeHTMLToTerm ("<aw>" ++ sender.nickname ++ " (admin) " ++ v1 ++ ": " ++ message ++ "</ww>"))
          else
            sendMessageToUser targetUid
              (encodeHTMLToTerm ("<w>" ++ sender.nickname ++ " " ++ v1 ++ ": " ++ message ++ "</w>"))
        (updateHeap st targetUid (fun u => { u with lastMsgFrom := sender.nickname }),
         [senderNote, targetNote])

/-- usermgr.go `handleUserLogout`. -/
def handleUserLogout (st : SrvState) (u : User) : SrvState × List Event :=
  (removeUser st u.nickname,
   [Event.broadcastAll (u.nickname ++ " has left the chat"), Event.connClose u.uid])

/-- usermgr.go `handleNewNick`: validate the format, check uniqueness via the
case-insensitive `FindUser`, then remove the old key, mutate the nickname in
place and re-insert. -/
def handleNewNick (st : SrvState) (u : User) (newNickname : String) : SrvState × List Event :=
  match validateNickname newNickname with
  | Except.error e => (st, [sendMessageToUser u.uid e])
  | Except.ok _ =>
    if (FindUser st newNickname).isSome then
      (st, [sendMessageToUser u.uid "That nickname is already in use. Please choose another."])
    else
      let oldNickname := u.nickname
      let st1 := removeUser st oldNickname
      let st2 := updateHeap st1 u.uid (fun v => { v with nickname := newNickname })
      let (st3, ok) := addUser st2 u.uid
      if !ok then
        (st3, [sendMessageToUser u.uid "Failed to update nickname. Please try again."])
      else
        (st3, [Event.broadcastAll (oldNickname ++ " is now: " ++ newNickname)])

/-- usermgr.go `handleKick`: self-kick and not-found are reported as errors to
the dispatcher; otherwise notify, close, remove (by lowercased key), broadcast
to the others and confirm to the admin. -/
def handleKick (st : SrvState) (targetNickname kickMessage : String) (admin : User) :
    SrvState × List Event × Option String :=
  if eqFold targetNickname admin.nickname then
    (st, [], some "cannot kick yourself")
  else
    match FindUser st targetNickname with
    | none => (st, [], some "user not found")
    | some targetUid =>
      match derefUser st targetUid with
      | none => (st, [], none)
      | some target =>
        let nomsg := goTrimSet kickMessage [' '] == ""
        let kickMsg :=
          if nomsg then "You have been kicked by " ++ admin.nickname ++ "."
          else "You have been kicked by " ++ admin.nickname ++ ": " ++ kickMessage
        let bmsg :=
          if nomsg then target.nickname ++ " has been kicked."
          else target.nickname ++ " has been kicked by " ++ admin.nickname ++ ": " ++ kickMessage
        (removeUser st target.nickname,
         [sendMessageToUser targetUid kickMsg,
          Event.connClose targetUid,
          Event.broadcastExceptNick target.nickname bmsg,
          sendMessageToUser admin.uid ("User " ++ target.nickname ++ " has been kicked.")],
         none)

/-! ### Credential-store commands (usermgr.go) -/

/-- usermgr.go `changePasswordForUser`: hash then persist (both always
succeed in the model). -/
def changePasswordForUser (db : List DBRow) (username newPassword : String) : List DBRow :=
  updatePassword db username (bcryptHash newPassword)

/-- usermgr.go `handleChangePassword`. -/
def handleChangePassword (st : SrvState) (u : User) (args : List String) :
    SrvState × List Event :=
  if args.length ≠ 2 then
    (st, [sendMessageToUser u.uid "Usage: /passwd <username> <newPassword>"])
  else
    let targetUsername := args.getD 0 ""
    let newPassword := args.getD 1 ""
    if u.privilege == 1 then
      ({ st with db := changePasswordForUser st.db targetUsername newPassword },
       [sendMessageToUser u.uid ("Password for " ++ targetUsername ++ " updated successfully.")])
    else
      if targetUsername ≠ u.username then
        (st, [sendMessageToUser u.uid "You can only change your own password."])
      else
        ({ st with db := changePasswordForUser st.db u.username newPassword },
         [sendMessageToUser u.uid "Your password has been updated successfully."])

/-- usermgr.go `handleCreateUser`. -/
def handleCreateUser (st : SrvState) (u : User) (args : List String) :
    SrvState × List Event :=
  if u.privilege < 1 then (st, [sendMessageToUser u.uid ErrPrivilege])
  else if args.length ≠ 2 then
    (st, [sendMessageToUser u.uid "Usage: /createuser <username> <password>"])
  else
    match createUser st.db (args.getD 0 "") (bcryptHash (args.getD 1 "")) 0 with
    | Except.error e =>
      (st, [sendMessageToUser u.uid ("Error creating user: " ++ e)])
    | Except.ok db2 =>
      ({ st with db := db2 },
       [sendMessageToUser u.uid ("User " ++ args.getD 0 "" ++ " created successfully.")])

/-- usermgr.go `handleChangePrivilege`.  Note the reserved-account check
compares `args[1]` — the privilege-level argument — against "admin", exactly
as the source does. -/
def handleChangePrivilege (st : SrvState) (u : User) (args : List String) :
    SrvState × List Event :=
  let usage := "Usage: /priv <username> <privilege> (0: user, 1: admin)"
  if u.privilege < 1 then (st, [sendMessageToUser u.uid ErrPrivilege])
  else if args.length ≠ 2 then (st, [sendMessageToUser u.uid usage])
  else if eqFold (args.getD 1 "") "admin" then
    (st, [sendMessageToUser u.uid "Privilege level change for user \x27admin\x27 is not allowed."])
  else
    match goAtoi (args.getD 1 "") with
    | none => (st, [sendMessageToUser u.uid usage])
    | some newPrivilege =>
      ({ st with db := updatePrivilege st.db (args.getD 0 "") newPrivilege },
       [sendMessageToUser u.uid
         ("Privilege for user " ++ args.getD 0 "" ++ " updated successfully. User must re-login.")])

/-- usermgr.go `handleDeleteUser`: refuse self-deletion; kick first when the
target is online; then delete the account row. -/
def handleDeleteUser (st : SrvState) (u : User) (args : List String) :
    SrvState × List Event :=
  if u.privilege < 1 then (st, [sendMessageToUser u.uid ErrPrivilege])
  else if args.length ≠ 1 then
    (st, [sendMessageToUser u.uid "Usage: /deleteuser <username>"])
  else
    let targetUsername := args.getD 0 ""
    if eqFold targetUsername u.username then
      (st, [sendMessageToUser u.uid "Deleting current user is not allowed."])
    else if (FindUser st targetUsername).isSome then
      let (st1, evs1, err) := handleKick st targetUsername "User deleted by administrator" u
      match err with
      | some e =>
        (st1, evs1 ++
          [sendMessageToUser u.uid ("Error kicking user " ++ targetUsername ++ ": " ++ e)])
      | none =>
        ({ st1 with db := deleteUserDB st1.db targetUsername },
         evs1 ++ [sendMessageToUser u.uid ("User " ++ targetUsername ++ " deleted successfully.")])
    else
      ({ st with db := deleteUserDB st.db targetUsername },
       [sendMessageToUser u.uid ("User " ++ targetUsername ++ " deleted successfully.")])

/-- usermgr.go `handleEnumUsers`. -/
def handleEnumUsers (st : SrvState) (u : User) : List Event :=
  if u.privilege < 1 then [sendMessageToUser u.uid ErrPrivilege]
  else [sendMessageToUser u.uid (goJoin (enumUsers st.db) "\n" ++ "\n(End of list)")]

/-! ### server.go command handlers and dispatcher -/

/-- server.go `ServerCommand` (`User` is a possibly-nil pointer). -/
structure ServerCommand where
  command : String
  user : Option UserId
  args : List String
deriving Repr, DecidableEq

/-- server.go `parseCommand`: strip the leading `/`, split into fields; a bare
marker yields a command with an empty name. -/
def parseCommand (user : UserId) (input : String) : ServerCommand :=
  let trimmed := goTrimSpace input
  let cmdStr := if strContains (String.mk (trimmed.data.take 1)) "/" then
      String.mk (trimmed.data.drop 1) else trimmed
  match goFields cmdStr with
  | [] => { command := "", user := some user, args := [] }
  | name :: rest => { command := name, user := some user, args := rest }

/-- server.go `handleEcho`. -/
def handleEcho (u : User) (args : List String) : List Event :=
  if args.length == 0 then [sendMessageToUser u.uid "Usage: /echo <message>"]
  else [sendMessageToUser u.uid ("Echo: " ++ goJoin args " ")]

/-- server.go `handleHelp`, the common command list. -/
def helpCommon : List String :=
  ["<title>Available commands:</title>\r",
   "<cmd>/whoami</cmd> - Display your current nickname and privilege level\r",
   "<cmd>/echo</cmd> &lt;message&gt; - Echo back the message\r",
   "<cmd>/msg</cmd> &lt;nickname&gt; &lt;message&gt; - Send a private message\r",
   "<cmd>/reply</cmd> &lt;message&gt; - Reply to the last private message received\r",
   "<cmd>/bye</cmd> or /logout - Logout from the chat\r",
   "<cmd>/who</cmd> - List all users in the chat\r",
   "<cmd>/nick</cmd> &lt;newNickname&gt; - Change your nickname\r",
   "<cmd>/help</cmd> - Display this help information\r"]

/-- server.go `handleHelp`, the admin-only additions. -/
def helpAdmin : List String :=
  ["\r<title>Admin commands:</title>\r",
   "<cmd>/createuser</cmd> &lt;username&gt; &lt;password&gt; - Create a new user\r",
   "<cmd>/priv</cmd> &lt;username&gt; &lt;level&gt; - Change user privileges\r",
   "<cmd>/deleteuser</cmd> &lt;username&gt; - Delete a user\r",
   "<cmd>/enumusers</cmd> - List all users\r",
   "<cmd>/kick</cmd> &lt;nickname&gt; [reason] - Kick a user\r",
   "<cmd>/shutdown</cmd> [seconds] - Shutdown the server with an optional countdown\r"]

/-- server.go `handleHelp`. -/
def handleHelp (u : User) : List Event :=
  let helpMsg := if u.privilege > 0 then helpCommon ++ helpAdmin else helpCommon
  [sendMessageToUser u.uid (encodeHTMLToTerm (goJoin helpMsg "\n"))]

/-- server.go `handleTest`. -/
def handleTest (u : User) : List Event :=
  [sendMessageToUser u.uid "Test command received.",
   sendMessageToUser u.uid (encodeHTMLToTerm
     "[src4] This is <span style=\"color: blue; font-weight: bold\">This is <u>blue and bold</u> with <span style=\"color: green\">green nested text</span></span> and normal text"),
   sendMessageToUser u.uid "This should be normal text again"]

/-- Marker for an unrecovered Go runtime panic in the dispatcher goroutine
(`/kick` with no arguments indexes an empty slice). -/
def panicEvent : Event := Event.connMsg "panic: runtime error: index out of range"

/--
server.go `commandDispatcher`, the body of one loop iteration.  Returns the
new state, the emitted events, and whether the loop terminates after this
command (the `return` of the shutdown branch, which sits outside its
privilege check; or a runtime panic).
-/
def commandDispatcherStep (st : SrvState) (cmd : ServerCommand) :
    SrvState × List Event × Bool :=
  match cmd.user with
  | none => (st, [], false)
  | some uid =>
    match derefUser st uid with
    | none => (st, [], false)
    | some user =>
      match cmd.command with
      | "" => (st, [], false)
      | "help" => (st, handleHelp user, false)
      | "test" => (st, handleTest user, false)
      | "whoami" => (st, handleWhoAmI user, false)
      | "echo" => (st, handleEcho user cmd.args, false)
      | "kick" =>
        if user.privilege == 0 then (st, [sendMessageToUser uid ErrPrivilege], false)
        else
          match cmd.args with
          | [] => (st, [panicEvent], true)
          | [target] =>
            let (st1, evs, err) := handleKick st target "" user
            match err with
            | some e =>
              (st1, evs ++ [sendMessageToUser uid ("Error executing kick command. " ++ e)], false)
            | none => (st1, evs, false)
          | target :: restArgs =>
            let (st1, evs, err) := handleKick st target (goJoin restArgs " ") user
            match err with
            | some e =>
              (st1, evs ++ [sendMessageToUser uid ("Error executing kick command. " ++ e)], false)
            | none => (st1, evs, false)
      | "msg" | "w" | "whisper" =>
        if cmd.args.length ≥ 2 then
          let targetNickname := cmd.args.getD 0 ""
          let msg := goJoin (cmd.args.drop 1) " "
          if goTrimSet msg [' '] == "" then
            (st, [sendMessageToUser uid "Message what?"], false)
          else
            let (st1, evs) := handlePrivateMessage st user false targetNickname msg
            (st1, evs, false)
        else
          (st, [sendMessageToUser uid "Invalid message format. Use: /msg <nickname> <message>"], false)
      | "r" | "reply" =>
        if user.lastMsgFrom == "" then
          (st, [sendMessageToUser uid "No user to reply to."], false)
        else
          let msg := goJoin cmd.args " "
          if goTrimSet msg [' '] == "" then
            (st, [sendMessageToUser uid "Invalid reply format. Use: /r <message>"], false)
          else
            let (st1, evs) := handlePrivateMessage st user true user.lastMsgFrom msg
            (st1, evs, false)
      | "bye" | "logout" =>
        let (st1, evs) := handleUserLogout st user
        (st1, evs, false)
      | "who" => (st, handleWho st user, false)
      | "nick" =>
        match cmd.args with
        | newNickname :: _ =>
          let (st1, evs) := handleNewNick st user newNickname
          (st1, evs, false)
        | [] =>
          (st, [sendMessageToUser uid "Please provide a new nickname. Use: /nick <newNickname>"], false)
      | "passwd" =>
        let (st1, evs) := handleChangePassword st user cmd.args
        (st1, evs, false)
      | "createuser" =>
        let (st1, evs) := handleCreateUser st user cmd.args
        (st1, evs, false)
      | "priv" =>
        let (st1, evs) := handleChangePrivilege st user cmd.args
        (st1, evs, false)
      | "deleteuser" =>
        let (st1, evs) := handleDeleteUser st user cmd.args
        (st1, evs, false)
      | "enumusers" => (st, handleEnumUsers st user, false)
      | "shutdown" =>
        if user.privilege == 0 then
          (st, [sendMessageToUser uid ErrPrivilege], true)
        else
          match cmd.args with
          | [] => (st, [], true)
          | a :: _ =>
            match goAtoi a with
            | none => (st, [sendMessageToUser uid ErrInvalidShutdownTime], false)
            | some cts =>
              if cts < 0 then (st, [sendMessageToUser uid ErrInvalidShutdownTime], false)
              else (st, [Event.terminateServerCall cts], true)
      | _ => (st, [sendMessageToUser uid "Unknown command."], false)

/-- server.go `commandDispatcher`: consume queued commands in order until the
queue is empty or an iteration terminates the loop; returns the final state,
the full event trace, and the commands left unprocessed. -/
def commandDispatcher (st : SrvState) : List ServerCommand →
    SrvState × List Event × List ServerCommand
  | [] => (st, [], [])
  | c :: cs =>
    let (st1, evs, halted) := commandDispatcherStep st c
    if halted then (st1, evs, cs)
    else
      let (st2, evs2, rest) := commandDispatcher st1 cs
      (st2, evs ++ evs2, rest)

/-! ### Dispatcher evaluations (C2, C3, C5, C7, C10) -/

/-- A regular (privilege-0) user `alice`. -/
def uAlice : User :=
  { uid := 1, username := "alice", privilege := 0, nickname := "alice",
    addr := "192.168.0.10:41000", lastMsgFrom := "" }

/-- A regular (privilege-0) user `bob`. -/
def uBob : User :=
  { uid := 2, username := "bob", privilege := 0, nickname := "bob",
    addr := "192.168.0.12:41004", lastMsgFrom := "" }

/-- An admin (privilege-1) user `root`. -/
def uRoot : User :=
  { uid := 3, username := "root", privilege := 1, nickname := "root",
    addr := "10.0.0.2:50000", lastMsgFrom := "" }

/-- State with `alice` and `bob` registered (both privilege 0). -/
def stAliceBob : SrvState :=
  { reg := [("alice", 1), ("bob", 2)], heap := [(1, uAlice), (2, uBob)], db := [] }

/-- A `/shutdown 0` issued by the regular user `bob`. -/
def shutdownByBob : ServerCommand := { command := "shutdown", user := some 2, args := ["0"] }

/-- An `/echo hi` issued by `alice`, queued behind `bob`'s command. -/
def echoByAlice : ServerCommand := { command := "echo", user := some 1, args := ["hi"] }

/--
C2.  For privilege-0 issuers, `kick`, `createuser`, `priv`, `deleteuser` and
`enumusers` reply with the permission-denied message and change nothing, and
the dispatcher continues — but `shutdown` is different: the `return` of its
dispatcher branch sits outside the privilege check, so a privilege-0
`/shutdown` sends the denial and then terminates the dispatcher, leaving the
queued `/echo` unprocessed.  This refutes the claim's "the command dispatcher
continues processing subsequent queued commands".
-/
theorem priv0_shutdown_stops_dispatcher_C2 :
    commandDispatcherStep stAliceBob { command := "kick", user := some 2, args := ["alice"] } =
      (stAliceBob, [Event.msgTo 2 ErrPrivilege], false) ∧
    commandDispatcherStep stAliceBob { command := "createuser", user := some 2, args := ["x", "y"] } =
      (stAliceBob, [Event.msgTo 2 ErrPrivilege], false) ∧
    commandDispatcherStep stAliceBob { command := "priv", user := some 2, args := ["x", "1"] } =
      (stAliceBob, [Event.msgTo 2 ErrPrivilege], false) ∧
    commandDispatcherStep stAliceBob { command := "deleteuser", user := some 2, args := ["x"] } =
      (stAliceBob, [Event.msgTo 2 ErrPrivilege], false) ∧
    commandDispatcherStep stAliceBob { command := "enumusers", user := some 2, args := [] } =
      (stAliceBob, [Event.msgTo 2 ErrPrivilege], false) ∧
    commandDispatcherStep stAliceBob shutdownByBob =
      (stAliceBob, [Event.msgTo 2 ErrPrivilege], true) ∧
    commandDispatcher stAliceBob [shutdownByBob, echoByAlice] =
      (stAliceBob, [Event.msgTo 2 ErrPrivilege], [echoByAlice]) := by
  refine ⟨by decide, by decide, by decide, by decide, by decide, by decide, by decide⟩

/-- State with only the admin `root` registered. -/
def stRoot : SrvState := { reg := [("root", 3)], heap := [(3, uRoot)], db := [] }

/--
C3.  An admin `/shutdown 5` and `/shutdown 0` invoke the shutdown controller
with the given delay and terminate the dispatcher, and an invalid argument
only draws an error.  But `/shutdown` with NO argument — which the claim (and
the in-program help text, "`/shutdown [seconds]`") says means an immediate
shutdown — never calls `terminateServer`: the branch only guards the call
with `len(cmd.Args) > 0`, then falls through to `return`.  The dispatcher
halts without any shutdown being initiated.
-/
theorem shutdown_no_args_skips_terminate_C3 :
    commandDispatcherStep stRoot { command := "shutdown", user := some 3, args := ["5"] } =
      (stRoot, [Event.terminateServerCall 5], true) ∧
    commandDispatcherStep stRoot { command := "shutdown", user := some 3, args := ["0"] } =
      (stRoot, [Event.terminateServerCall 0], true) ∧
    commandDispatcherStep stRoot { command := "shutdown", user := some 3, args := [] } =
      (stRoot, [], true) ∧
    commandDispatcherStep stRoot { command := "shutdown", user := some 3, args := ["abc"] } =
      (stRoot, [Event.msgTo 3 ErrInvalidShutdownTime], false) := by
  refine ⟨by decide, by decide, by decide, by decide⟩

/-- State with the single session registered under the mixed-case key `Alice`. -/
def stNick : SrvState := { reg := [("Alice", 1)], heap := [(1, uAliceMixed)], db := [] }

/-- The state after `Alice` runs `/nick bob99` in `stNick`. -/
def stAfterNick : SrvState := (handleNewNick stNick uAliceMixed "bob99").1

/--
C5.  `bob99` is validly formatted and unused, so the claim says the rename
succeeds and leaves exactly one registry entry for the issuer, listed once by
`who`.  In the code, `removeUser "Alice"` deletes the lowercased key `alice`
— a no-op — so after the rename the registry holds TWO entries for the
issuer (`Alice` and `bob99`, both aliasing the same `*User`, whose nickname
is now `bob99`), and the `who` listing shows `bob99` twice.
-/
theorem nick_leaves_stale_entry_C5 :
    validateNickname "bob99" = Except.ok () ∧
    FindUser stNick "bob99" = none ∧
    stAfterNick.reg = [("bob99", 1), ("Alice", 1)] ∧
    (stAfterNick.reg.filter (fun e => e.2 == 1)).length = 2 ∧
    generateUserListEntries stAfterNick { uAliceMixed with nickname := "bob99" } =
      ["bob99 (user)", "bob99 (user)"] ∧
    (handleNewNick stNick uAliceMixed "bob99").2 =
      [Event.broadcastAll "Alice is now: bob99"] := by
  refine ⟨rfl, by decide, by decide, by decide, by decide, by decide⟩

/-- State with admin `root` online and the reserved `admin` account stored. -/
def stPriv : SrvState :=
  { reg := [("root", 3)], heap := [(3, uRoot)],
    db := [{ username := "admin", passwordHash := "h", privilege := 1 }] }

/--
C7.  The claim says `/priv` refuses when the TARGET USERNAME (first argument)
is the reserved account `admin`.  The code compares `args[1]` — the privilege
LEVEL argument — against "admin" instead: `/priv admin 0` sails through and
updates the reserved account's privilege in the store, while `/priv bob
admin` (nonsense level, would fail `Atoi` anyway) is the call that draws the
refusal message.
-/
theorem priv_checks_wrong_argument_C7 :
    handleChangePrivilege stPriv uRoot ["admin", "0"] =
      ({ stPriv with db := [{ username := "admin", passwordHash := "h", privilege := 0 }] },
       [Event.msgTo 3 "Privilege for user admin updated successfully. User must re-login."]) ∧
    handleChangePrivilege stPriv uRoot ["bob", "admin"] =
      (stPriv,
       [Event.msgTo 3 "Privilege level change for user \x27admin\x27 is not allowed."]) := by
  refine ⟨by decide, by decide⟩

/-- The shutdown command injected by the SIGINT/SIGTERM handler (main.go /
server.go `Run`): no issuing session. -/
def signalShutdownCommand : ServerCommand :=
  { command := "shutdown", user := none, args := ["0"] }

/--
C10.  A command whose issuer pointer is nil is discarded by the dispatcher's
leading `cmd.User == nil` check: no handler runs, no event is emitted, the
state is untouched and the loop continues.  In particular the signal-injected
shutdown command is skipped rather than dispatched to the shutdown branch.
-/
theorem nil_user_commands_discarded_C10 :
    (∀ (st : SrvState) (cmd : ServerCommand), cmd.user = none →
      commandDispatcherStep st cmd = (st, [], false)) ∧
    (∀ (st : SrvState) (cmds : List ServerCommand),
      commandDispatcher st (signalShutdownCommand :: cmds) = commandDispatcher st cmds) := by
  constructor
  · intro st cmd h
    unfold commandDispatcherStep
    rw [h]
  · intro st cmds
    rfl

/-- Witness for C10 at the concrete signal-injected command. -/
theorem nil_user_commands_discarded_C10_witness :
    signalShutdownCommand.user = none ∧
    commandDispatcherStep stAliceBob signalShutdownCommand = (stAliceBob, [], false) :=
  ⟨rfl, nil_user_commands_discarded_C10.1 stAliceBob signalShutdownCommand rfl⟩

/-! ### Shutdown countdown (serveraux.go `countdownWarnings`, server.go
`terminateServer`) -/

/-- One tick of `countdownWarnings`: the warning (if any) broadcast when the
remaining time has just been decremented to `r` seconds. -/
def shutdownWarningAt (r : Nat) : Option String :=
  if 900 < r then
    if r % 900 = 0 then
      some ("System Notice: SHUTDOWN in " ++ toString (r / 60) ++ " minutes")
    else none
  else if 60 < r then
    if r % 60 = 0 then
      some ("System Notice: SHUTDOWN in " ++ toString (r / 60) ++ " minutes. Please log out now.")
    else none
  else
    if r % 10 = 0 ∧ 0 < r then
      some ("System Notice: SHUTDOWN IMMINENT in " ++ toString r ++ " seconds. LOG OUT NOW!")
    else none

/-- serveraux.go `countdownWarnings`: starting from `remainingTime = D`, each
tick decrements and then checks; the emitted warnings, tagged with the
remaining time at which each fires (in firing order, `D-1` down to `0`). -/
def countdownWarnings : Nat → List (Nat × String)
  | 0 => []
  | n + 1 =>
    (match shutdownWarningAt n with
     | some m => [(n, m)]
     | none => []) ++ countdownWarnings n

/-- server.go `terminateServerNow`, the terminal system broadcast. -/
def terminateServerNowBroadcast : String :=
  "System Notice: ChatServer is shutting down NOW. Please reconnect later."

/-- server.go `terminateServer`: the system-broadcast timeline of a shutdown,
tagged with remaining seconds — for a positive delay, the initial notice, the
countdown warnings, then the terminal broadcast at remaining = 0; for delay
0, only the terminal broadcast.  (Listener/connection closing is orthogonal
to the broadcast cadence and not modelled here.) -/
def terminateServer (seconds : Nat) : List (Nat × String) :=
  if 0 < seconds then
    (seconds,
     "ChatServer shutdown has been initiated; server will shut down in "
       ++ toString (seconds / 60) ++ " minutes, " ++ toString (seconds % 60) ++ " seconds.")
      :: (countdownWarnings seconds ++ [(0, terminateServerNowBroadcast)])
  else [(0, terminateServerNowBroadcast)]

/-- The cadence claimed in the specification: multiples of 15 minutes above
15 minutes, of one minute between 1 and 15 minutes, of 10 seconds inside the
final minute. -/
def warnCondition (r : Nat) : Prop :=
  (900 < r → 900 ∣ r) ∧ (60 < r → r ≤ 900 → 60 ∣ r) ∧ (r ≤ 60 → 10 ∣ r)

/-- A tick at remaining time `r` emits a warning exactly when `r` is positive
and on the cadence. -/
theorem shutdownWarning_some_iff (r : Nat) :
    (∃ m, shutdownWarningAt r = some m) ↔ (0 < r ∧ warnCondition r) := by
  unfold shutdownWarningAt warnCondition
  split_ifs with h1 h2 h3 h4 h5 <;> simp <;> omega

/-- Membership in the countdown trace, element-wise. -/
theorem mem_countdownWarnings_pair (D r : Nat) (m : String) :
    (r, m) ∈ countdownWarnings D ↔ (r < D ∧ shutdownWarningAt r = some m) := by
  induction D with
  | zero => simp [countdownWarnings]
  | succ n ih =>
    cases hw : shutdownWarningAt n with
    | none =>
      rw [countdownWarnings, hw]
      simp only [List.nil_append]
      rw [ih]
      constructor
      · rintro ⟨h1, h2⟩
        exact ⟨by omega, h2⟩
      · rintro ⟨h1, h2⟩
        refine ⟨?_, h2⟩
        rcases Nat.lt_succ_iff_lt_or_eq.mp h1 with h | h
        · exact h
        · subst h
          rw [h2] at hw
          cases hw
    | some m0 =>
      rw [countdownWarnings, hw]
      simp only [List.singleton_append, List.mem_cons, Prod.mk.injEq]
      rw [ih]
      constructor
      · rintro (⟨rfl, rfl⟩ | ⟨h1, h2⟩)
        · exact ⟨Nat.lt_succ_self _, hw⟩
        · exact ⟨by omega, h2⟩
      · rintro ⟨h1, h2⟩
        rcases Nat.lt_succ_iff_lt_or_eq.mp h1 with h | h
        · exact Or.inr ⟨h, h2⟩
        · subst h
          rw [h2] at hw
          cases hw
          exact Or.inl ⟨rfl, rfl⟩

/--
C8.  During a countdown of `D > 0` seconds, a warning fires exactly at the
remaining times `r` with `0 < r < D` on the delay-dependent cadence
(multiples of 900 s above 900 s, of 60 s between 60 and 900 s, of 10 s at or
below 60 s); nothing fires at `r = 0`, which only carries the terminal
shutting-down-now broadcast of `terminateServer`.
-/
theorem countdown_cadence_C8 (D : Nat) (hD : 0 < D) (r : Nat) :
    ((∃ m, (r, m) ∈ countdownWarnings D) ↔ (0 < r ∧ r < D ∧ warnCondition r)) ∧
    (∀ m, (0, m) ∉ countdownWarnings D) ∧
    (0, terminateServerNowBroadcast) ∈ terminateServer D := by
  refine ⟨?_, ?_, ?_⟩
  · constructor
    · rintro ⟨m, hm⟩
      rw [mem_countdownWarnings_pair] at hm
      have h := (shutdownWarning_some_iff r).mp ⟨m, hm.2⟩
      exact ⟨h.1, hm.1, h.2⟩
    · rintro ⟨h1, h2, h3⟩
      obtain ⟨m, hm⟩ := (shutdownWarning_some_iff r).mpr ⟨h1, h3⟩
      exact ⟨m, (mem_countdownWarnings_pair D r m).mpr ⟨h2, hm⟩⟩
  · intro m hm
    rw [mem_countdownWarnings_pair] at hm
    have h0 : shutdownWarningAt 0 = none := rfl
    rw [h0] at hm
    exact Option.noConfusion hm.2
  · simp [terminateServer, hD]

/-- Witness for C8: the cadence theorem applied to a 5-second shutdown at
remaining time 3 (inside the final minute, not a multiple of 10: no warning). -/
theorem countdown_cadence_C8_witness :
    0 < 5 ∧
    (((∃ m, (3, m) ∈ countdownWarnings 5) ↔ (0 < 3 ∧ 3 < 5 ∧ warnCondition 3)) ∧
     (∀ m, (0, m) ∉ countdownWarnings 5) ∧
     (0, terminateServerNowBroadcast) ∈ terminateServer 5) :=
  ⟨by decide, countdown_cadence_C8 5 (by decide) 3⟩

/-! ### Login state machine (server.go `handleNewClient`, serveraux.go
`queryNicknameWithTimeout`) -/

/-- One scripted input on a connection: a line (or a read error, `none`)
becoming available `time` seconds after the login began. -/
structure ScriptItem where
  time : Nat
  line : Option String
deriving Repr, DecidableEq

/-- Result of one timer-raced nickname read. -/
inductive QueryResult where
  | ok (nickname : String) (time : Nat)
  | timeout
  | readErr
  | invalid
deriving Repr, DecidableEq

/-- serveraux.go `queryNicknameWithTimeout`, on the next scripted input.  The
read races the single `time.After` login timer: the line wins iff it arrives
strictly before the deadline (the exactly-simultaneous tie, which Go's
`select` resolves randomly, is resolved here in the timer's favour).  A line
that wins is trimmed of trailing blanks/CR/LF by the reader goroutine, then
sanitized and validated; a validation failure is a non-timeout error.  An
empty script means no line ever arrives, so the timer fires. -/
def queryNicknameWithTimeout (deadline : Nat) (script : List ScriptItem) : QueryResult :=
  match script with
  | [] => QueryResult.timeout
  | item :: _ =>
    match item.line with
    | none => if item.time < deadline then QueryResult.readErr else QueryResult.timeout
    | some s =>
      if item.time < deadline then
        let nick := sanitizeNickname (goTrimRightSet s [' ', '\r', '\n'])
        match validateNickname nick with
        | Except.ok _ => QueryResult.ok nick item.time
        | Except.error _ => QueryResult.invalid
      else QueryResult.timeout

/-- Outcome of the nickname-collision loop. -/
inductive ResolveOut where
  | ok (username : String) (now : Nat) (script : List ScriptItem) (events : List Event)
  | timedOut (events : List Event)
  | failed (events : List Event)
deriving Repr, DecidableEq

/-- The `ResolvingNickname` loop of `handleNewClient`: while the chosen name
collides case-insensitively with a registered nickname, prompt for and read
an alternate — each read still raced against the same overall timer. -/
def resolveNickname (st : SrvState) (deadline : Nat) :
    List ScriptItem → String → Nat → ResolveOut
  | script, username, now =>
    if (FindUser st username).isNone then ResolveOut.ok username now script []
    else
      let prompt := Event.connMsg "Username already in use. Please enter a different nickname: "
      match script with
      | [] =>
        ResolveOut.timedOut [prompt, Event.connMsg "Login period exceeded, connection closed."]
      | item :: rest =>
        match queryNicknameWithTimeout deadline (item :: rest) with
        | QueryResult.ok nick t =>
          match resolveNickname st deadline rest (goTrimSpace nick) t with
          | ResolveOut.ok u n sc evs => ResolveOut.ok u n sc (prompt :: evs)
          | ResolveOut.timedOut evs => ResolveOut.timedOut (prompt :: evs)
          | ResolveOut.failed evs => ResolveOut.failed (prompt :: evs)
        | QueryResult.timeout =>
          ResolveOut.timedOut [prompt, Event.connMsg "Login period exceeded, connection closed."]
        | QueryResult.readErr => ResolveOut.failed [prompt]
        | QueryResult.invalid => ResolveOut.failed [prompt]

/-- How a login run ends. -/
inductive LoginOutcome where
  | timedOut
  | readFailed
  | blocked
  | attemptsExhausted
  | success (nickname : String)
deriving Repr, DecidableEq

/-- Result of a login run: outcome, final state, event trace, and the
absolute time at which the last read completed. -/
structure LoginResult where
  outcome : LoginOutcome
  st : SrvState
  events : List Event
  finishTime : Nat
deriving Repr, DecidableEq

/-- server.go `handleNewClient`, the attempt loop.  `now` is the absolute
time at which the last read completed (the single timer started at 0).  The
username read and every alternate-nickname read go through
`queryNicknameWithTimeout`; the password read is a plain blocking
`reader.ReadString` with no timer in the race, faithfully modelled as
completing whenever its line arrives (`blocked` if it never does). -/
def loginAttempts (st : SrvState) (newUid : UserId) (addr : String) (deadline : Nat) :
    Nat → List ScriptItem → Nat → List Event → LoginResult
  | 0, _, now, evs =>
    { outcome := LoginOutcome.attemptsExhausted, st := st,
      events := evs ++ [Event.connMsg "Login attempts exhausted, closing connection."],
      finishTime := now }
  | fuel + 1, script, now, evs =>
    if deadline ≤ now then
      { outcome := LoginOutcome.timedOut, st := st,
        events := evs ++ [Event.connMsg "Login period exceeded, connection closed."],
        finishTime := now }
    else
      match script with
      | [] =>
        { outcome := LoginOutcome.timedOut, st := st,
          events := evs ++ [Event.connMsg "Login period exceeded, connection closed."],
          finishTime := now }
      | item :: rest =>
        match queryNicknameWithTimeout deadline (item :: rest) with
        | QueryResult.timeout =>
          { outcome := LoginOutcome.timedOut, st := st,
            events := evs ++ [Event.connMsg "Login period exceeded, connection closed."],
            finishTime := now }
        | QueryResult.readErr =>
          { outcome := LoginOutcome.readFailed, st := st, events := evs, finishTime := now }
        | QueryResult.invalid =>
          { outcome := LoginOutcome.readFailed, st := st, events := evs, finishTime := now }
        | QueryResult.ok username t =>
          let evs1 := evs ++ [Event.connMsg "Please enter your password: "]
          match rest with
          | [] =>
            { outcome := LoginOutcome.blocked, st := st, events := evs1, finishTime := t }
          | pItem :: rest2 =>
            match pItem.line with
            | none =>
              { outcome := LoginOutcome.readFailed, st := st, events := evs1, finishTime := t }
            | some pw0 =>
              let password := goTrimSpace pw0
              let now2 := pItem.time
              match authenticateUser st.db username password with
              | none =>
                loginAttempts st newUid addr deadline fuel rest2 now2
                  (evs1 ++ [Event.connMsg "Invalid username or password. Please try again."])
              | some row =>
                match resolveNickname st deadline rest2 username now2 with
                | ResolveOut.timedOut evsN =>
                  { outcome := LoginOutcome.timedOut, st := st,
                    events := evs1 ++ evsN, finishTime := now2 }
                | ResolveOut.failed evsN =>
                  { outcome := LoginOutcome.readFailed, st := st,
                    events := evs1 ++ evsN, finishTime := now2 }
                | ResolveOut.ok finalNick now3 _ evsN =>
                  let user : User :=
                    { uid := newUid, username := row.username, privilege := row.privilege,
                      nickname := finalNick, addr := addr, lastMsgFrom := "" }
                  let st1 : SrvState := { st with heap := (newUid, user) :: st.heap }
                  let st2 := (addUser st1 newUid).1
                  { outcome := LoginOutcome.success finalNick, st := st2,
                    events := evs1 ++ evsN ++
                      [Event.connMsg ("Welcome to " ++ serverName ++ "! You are now known as "
                         ++ finalNick ++ "."),
                       Event.broadcastAll (finalNick ++ " has joined the chat")],
                    finishTime := now3 }

/-- server.go `handleNewClient`: banner, one overall timer, up to
`maxLoginAttempts` attempts. -/
def handleNewClient (st : SrvState) (newUid : UserId) (addr : String)
    (script : List ScriptItem) : LoginResult :=
  loginAttempts st newUid addr loginTimeout maxLoginAttempts script 0
    [Event.connMsg ("Welcome to " ++ serverName ++ ". Please enter your username: ")]

/-! ### Login theorems (C6, C9) -/

/-- Credential row for the account `bob`. -/
def bobRow : DBRow := { username := "bob", passwordHash := bcryptHash "pw", privilege := 0 }

/-- Empty registry, `bob` account stored. -/
def stLogin : SrvState := { reg := [], heap := [], db := [bobRow] }

/-- Registry already holding a session nicknamed `bob`, `bob` account stored. -/
def stLoginBusy : SrvState := { reg := [("bob", 2)], heap := [(2, uBob)], db := [bobRow] }

/-- Username at second 1, password only at second 100 — long after the
30-second timer has fired. -/
def loginScriptLatePassword : List ScriptItem :=
  [{ time := 1, line := some "bob" }, { time := 100, line := some "pw" }]

/--
C6 counterexample.  The claim says the 30-unit login timer covers every login
read, the password read included, so no login read can outlast the budget.
In the code the password read is a plain blocking `reader.ReadString` that
does not race the timer: with the username arriving at second 1 and the
password only at second 100, the timer fires at 30 yet the login completes
successfully at second 100 instead of failing with the login-timeout message.
-/
theorem login_password_outlives_timer_C6_cex :
    (handleNewClient stLogin 7 "10.1.1.1:49152" loginScriptLatePassword).outcome
        = LoginOutcome.success "bob" ∧
    (handleNewClient stLogin 7 "10.1.1.1:49152" loginScriptLatePassword).finishTime = 100 ∧
    loginTimeout < 100 := by
  refine ⟨by decide, by decide, by decide⟩

/-- If the overall timer fires before the line of a timer-raced read
arrives, the attempt loop reports the login timeout. -/
theorem loginAttempts_username_read_late (st : SrvState) (newUid : UserId) (addr : String)
    (fuel t : Nat) (s : String) (rest : List ScriptItem) (now : Nat) (evs : List Event)
    (h1 : now < loginTimeout) (h2 : loginTimeout ≤ t) :
    loginAttempts st newUid addr loginTimeout (fuel + 1)
        ({ time := t, line := some s } :: rest) now evs =
      { outcome := LoginOutcome.timedOut, st := st,
        events := evs ++ [Event.connMsg "Login period exceeded, connection closed."],
        finishTime := now } := by
  simp only [loginAttempts]
  rw [if_neg (show ¬ loginTimeout ≤ now by omega)]
  simp only [queryNicknameWithTimeout]
  rw [if_neg (show ¬ t < loginTimeout by omega)]

/--
C6 as amended: the single 30-unit timer covers the username read and every
alternate-nickname read — if it fires before a line arrives on one of those,
the connection fails with the login-timeout message — but the password read
is an untimed blocking read, and a login whose password line arrives after
the budget still succeeds.
-/
theorem login_timer_coverage_C6 :
    (∀ (st : SrvState) (newUid : UserId) (addr : String) (t : Nat) (s : String)
        (rest : List ScriptItem), loginTimeout ≤ t →
      (handleNewClient st newUid addr ({ time := t, line := some s } :: rest)).outcome
          = LoginOutcome.timedOut) ∧
    (∀ t : Nat, loginTimeout ≤ t →
      resolveNickname stLoginBusy loginTimeout [{ time := t, line := some "charlie1" }]
          "bob" 2 =
        ResolveOut.timedOut
          [Event.connMsg "Username already in use. Please enter a different nickname: ",
           Event.connMsg "Login period exceeded, connection closed."]) ∧
    (handleNewClient stLogin 8 "10.1.1.1:49154"
        [{ time := 1, line := some "bob" }, { time := 50, line := some "pw" }]).outcome
      = LoginOutcome.success "bob" := by
  refine ⟨?_, ?_, by decide⟩
  · intro st newUid addr t s rest h
    have e := loginAttempts_username_read_late st newUid addr 2 t s rest 0
      [Event.connMsg ("Welcome to " ++ serverName ++ ". Please enter your username: ")]
      (by decide) h
    show (loginAttempts st newUid addr loginTimeout (2 + 1)
        ({ time := t, line := some s } :: rest) 0
        [Event.connMsg ("Welcome to " ++ serverName ++ ". Please enter your username: ")]).outcome
      = LoginOutcome.timedOut
    rw [e]
  · intro t h
    rw [resolveNickname]
    rw [if_neg (show ¬ (FindUser stLoginBusy "bob").isNone = true by decide)]
    simp only [queryNicknameWithTimeout]
    rw [if_neg (show ¬ t < loginTimeout by omega)]

/-- Witness for the amended C6 at a username read arriving exactly at the
30-second deadline. -/
theorem login_timer_coverage_C6_witness :
    loginTimeout ≤ 30 ∧
    (handleNewClient stLogin 7 "10.1.1.1:49152"
        [{ time := 30, line := some "bob" }]).outcome = LoginOutcome.timedOut :=
  ⟨by decide, login_timer_coverage_C6.1 stLogin 7 "10.1.1.1:49152" 30 "bob" [] (by decide)⟩

/-! ### Nickname validation (C9) -/

/-- The acceptance language of `validateNickname`'s anchored regexp, stated
structurally: total length 3 to 20, leading ASCII letter, then
letters/digits/underscores. -/
theorem nicknameRegexMatches_iff (s : String) :
    nicknameRegexMatches s = true ↔
      (3 ≤ s.length ∧ s.length ≤ 20 ∧
        (∃ c cs, s.data = c :: cs ∧ isAsciiLetter c = true ∧
          ∀ d ∈ cs, isNickTailChar d = true)) := by
  obtain ⟨data⟩ := s
  cases data with
  | nil => simp [nicknameRegexMatches, String.length]
  | cons c cs =>
    simp only [nicknameRegexMatches, Bool.and_eq_true, decide_eq_true_eq,
      List.all_eq_true, String.length, List.length_cons, List.cons.injEq]
    constructor
    · rintro ⟨⟨⟨hl, h2⟩, h19⟩, hall⟩
      exact ⟨by omega, by omega, c, cs, ⟨rfl, rfl⟩, hl, hall⟩
    · rintro ⟨h3, h20, c2, cs2, ⟨hc, hcs⟩, hl, hall⟩
      subst hc
      subst hcs
      exact ⟨⟨⟨hl, by omega⟩, by omega⟩, hall⟩

/--
C9.  `validateNickname` accepts exactly the strings of a leading letter
followed by 2–19 letters/digits/underscores (total length 3–20): every
2-character candidate is rejected, a 20-character candidate is accepted,
every 21-character candidate is rejected; and a login-phase read
(`queryNicknameWithTimeout`) sanitizes the line — spaces and backslashes
removed, trailing separators stripped — before validating, accepting the
line exactly when the sanitized string validates.
-/
theorem nickname_validation_C9 :
    (∀ s : String, validateNickname s = Except.ok () ↔
      (3 ≤ s.length ∧ s.length ≤ 20 ∧
        (∃ c cs, s.data = c :: cs ∧ isAsciiLetter c = true ∧
          ∀ d ∈ cs, isNickTailChar d = true))) ∧
    (∀ s : String, s.length = 2 → validateNickname s = Except.error ErrIllegalNickname) ∧
    (validateNickname "a1234567890123456789" = Except.ok () ∧
      "a1234567890123456789".length = 20) ∧
    (∀ s : String, s.length = 21 → validateNickname s = Except.error ErrIllegalNickname) ∧
    (∀ (deadline t : Nat) (s : String) (rest : List ScriptItem), t < deadline →
      ((∃ n, queryNicknameWithTimeout deadline ({ time := t, line := some s } :: rest)
          = QueryResult.ok n t) ↔
        validateNickname (sanitizeNickname (goTrimRightSet s [' ', '\r', '\n']))
          = Except.ok ())) := by
  have hchar := nicknameRegexMatches_iff
  refine ⟨?_, ?_, ⟨rfl, by decide⟩, ?_, ?_⟩
  · intro s
    rw [validateNickname]
    split_ifs with hm
    · simp only [true_iff]
      exact (hchar s).mp hm
    · constructor
      · intro he
        exact absurd he (by simp [ErrIllegalNickname])
      · intro hr
        exact absurd ((hchar s).mpr hr) hm
  · intro s h
    have hm : ¬ nicknameRegexMatches s = true := by
      intro hh
      have := (hchar s).mp hh
      omega
    simp [validateNickname, hm]
  · intro s h
    have hm : ¬ nicknameRegexMatches s = true := by
      intro hh
      have := (hchar s).mp hh
      omega
    simp [validateNickname, hm]
  · intro deadline t s rest ht
    simp only [queryNicknameWithTimeout, if_pos ht]
    cases hv : validateNickname (sanitizeNickname (goTrimRightSet s [' ', '\r', '\n'])) with
    | ok u =>
      cases u
      simp [hv]
    | error e =>
      simp [hv]

/-- Witness for C9: the boundary rejections at lengths 2 and 21. -/
theorem nickname_validation_C9_witness :
    ("ab".length = 2 ∧ validateNickname "ab" = Except.error ErrIllegalNickname) ∧
    ("a12345678901234567890".length = 21 ∧
      validateNickname "a12345678901234567890" = Except.error ErrIllegalNickname) :=
  ⟨⟨by decide, nickname_validation_C9.2.1 "ab" (by decide)⟩,
   ⟨by decide, nickname_validation_C9.2.2.2.1 "a12345678901234567890" (by decide)⟩⟩

end Gochatsrv
